import Mathlib

/-
Verification of the model-caching and prediction core of the dashboard
repository (file `model.py`): `train_model`, `predict_life_expectancy`
and `plot_feature_importance`.

Modelling choices:
  * pandas numeric cell values are modelled as rationals (`ℚ`); a
    dataframe is a list of column names plus a list of rows, each row a
    total valuation of column names.
  * Python runtime values stored in the feature-ranges dictionary keep
    their dynamic type: `PyNum.int` for Python `int`, `PyNum.float` for
    the float values coming from the table.
  * The two artifact files (`model.joblib`, `feature_ranges.joblib`)
    are a `DiskState` with one `Option` field per file; `train_model`
    returns its result together with the possibly-updated disk state.
  * `sklearn`'s `RandomForestRegressor.fit` is external library code;
    it is taken as an abstract parameter `rfFit` (the fixed seed
    `random_state=42` makes it a deterministic function of the training
    data).  A fitted model exposes a per-row prediction function and
    its `feature_importances_` vector.
  * Exceptions are classified by the error taxonomy the specification
    assigns to them: the pandas `KeyError` from column selection and
    the sklearn `ValueError` on an empty fit are `trainingError`; the
    pandas length-mismatch `ValueError` in `plot_feature_importance`
    is `shapeError`.
-/

namespace Model

/-- A Python runtime numeric value: either an `int` or a `float`
(floats modelled as rationals). -/
inductive PyNum where
  | int (i : ℤ)
  | float (q : ℚ)
deriving DecidableEq, Repr

/-- Numeric value of a `PyNum`. -/
def PyNum.toRat : PyNum → ℚ
  | .int i => (i : ℚ)
  | .float q => q

/-- Python `int()` applied to a numeric value: truncation toward zero. -/
def pyInt (q : ℚ) : ℤ :=
  if 0 ≤ q then ⌊q⌋ else ⌈q⌉

/-- A pandas dataframe: the list of column names and the rows, each row
assigning a numeric value to every column name. -/
structure DataFrame where
  cols : List String
  rows : List (String → ℚ)

/-- Column access `df[c]` as the list of the column's values, row by row. -/
def DataFrame.colVals (df : DataFrame) (c : String) : List ℚ :=
  df.rows.map (fun r => r c)

/-- pandas `Series.min()` over a non-empty column (the empty case is
never reached by `train_model`: fitting fails first on zero rows). -/
def seriesMin : List ℚ → ℚ
  | [] => 0
  | x :: xs => xs.foldl min x

/-- pandas `Series.max()` over a non-empty column. -/
def seriesMax : List ℚ → ℚ
  | [] => 0
  | x :: xs => xs.foldl max x

/-- A fitted `RandomForestRegressor`: its per-row prediction function
(`model.predict` maps it over the input rows) and its
`feature_importances_` vector. -/
structure RFModel where
  predictRow : List ℚ → ℚ
  featureImportances : List ℚ

/-- The feature-ranges dictionary built by `train_model`:
feature name to (min, max), values keeping their Python runtime type. -/
abbrev FeatureRanges := List (String × (PyNum × PyNum))

/-- Python dictionary access `fr[c]`. -/
def lookupRange (fr : FeatureRanges) (c : String) : Option (PyNum × PyNum) :=
  (fr.find? (fun e => e.1 == c)).map Prod.snd

/-- The two artifact files in the working directory:
`model.joblib` and `feature_ranges.joblib`; `none` means the file does
not exist. -/
structure DiskState where
  modelFile : Option RFModel
  rangesFile : Option FeatureRanges

/-- Failure modes of `train_model` classified as `TrainingError` by the
specification: the pandas `KeyError` from `df[features]` (its message
lists the missing columns) and the sklearn `ValueError` from fitting a
zero-row table. -/
inductive TrainFailure where
  | missingColumns (cols : List String)
  | emptyTable

/-- The error taxonomy of the specification: `TrainingError`
(bad/missing columns, empty table), `IOError` (artifact read/write
failure), `ShapeError` (feature-name/count mismatch). -/
inductive ModelError where
  | trainingError (k : TrainFailure)
  | ioError (msg : String)
  | shapeError (msg : String)

/-- The fixed feature-column list of `train_model` (line 30). -/
def features : List String :=
  ["GDP per capita", "headcount_ratio_upper_mid_income_povline", "year"]

/-- The target column of `train_model` (line 32). -/
def target : String := "Life Expectancy (IHME)"

/-- The feature-ranges dictionary literal of `train_model`
(lines 39-44): min/max per feature, the `year` bounds passed through
Python `int()`. -/
def extract (df : DataFrame) : FeatureRanges :=
  [("GDP per capita",
      (.float (seriesMin (df.colVals "GDP per capita")),
       .float (seriesMax (df.colVals "GDP per capita")))),
   ("headcount_ratio_upper_mid_income_povline",
      (.float (seriesMin (df.colVals "headcount_ratio_upper_mid_income_povline")),
       .float (seriesMax (df.colVals "headcount_ratio_upper_mid_income_povline")))),
   ("year",
      (.int (pyInt (seriesMin (df.colVals "year"))),
       .int (pyInt (seriesMax (df.colVals "year")))))]

/-- The design matrix `X = df[features]` as a list of feature rows. -/
def designMatrix (df : DataFrame) : List (List ℚ) :=
  df.rows.map (fun r => features.map r)

/-- Embedding of `train_model` (model.py lines 9-50).  `rfFit` is the
external `RandomForestRegressor(n_estimators=100, random_state=42).fit`.
Returns the result of the call together with the disk state after it:
the load branch and every error branch leave the disk unchanged; the
training branch writes both artifact files. -/
def train_model (rfFit : List (List ℚ) → List ℚ → RFModel)
    (df : DataFrame) (s : DiskState) :
    Except ModelError (RFModel × FeatureRanges) × DiskState :=
  match s.modelFile, s.rangesFile with
  | some model, some feature_ranges =>
      -- both artifact files exist: load them, no validation, no writes
      (Except.ok (model, feature_ranges), s)
  | _, _ =>
      -- X = df[features]: pandas KeyError when a column is absent
      let missing := features.filter (fun c => !(df.cols.contains c))
      if missing.isEmpty then
        -- y = df['Life Expectancy (IHME)']: KeyError when absent
        if df.cols.contains target then
          if df.rows.isEmpty then
            -- model.fit(X, y): sklearn ValueError on zero samples
            (Except.error (.trainingError .emptyTable), s)
          else
            let model := rfFit (designMatrix df) (df.colVals target)
            let feature_ranges := extract df
            -- joblib.dump of both artifacts
            (Except.ok (model, feature_ranges),
             { modelFile := some model, rangesFile := some feature_ranges })
        else
          (Except.error (.trainingError (.missingColumns [target])), s)
      else
        (Except.error (.trainingError (.missingColumns missing)), s)

/-- Embedding of `predict_life_expectancy` (model.py lines 52-74):
builds the single-row input array and returns `model.predict(X_pred)[0]`.
Total: no validation against feature ranges, no clamping, no error. -/
def predict_life_expectancy (model : RFModel)
    (gdp : ℚ) (poverty_rate : ℚ) (year : ℤ) : ℚ :=
  let X_pred : List (List ℚ) := [[gdp, poverty_rate, (year : ℚ)]]
  ((X_pred.map model.predictRow).headD 0)

/-- Embedding of the data part of `plot_feature_importance`
(model.py lines 88-95): the (feature, importance) pairs of the
dataframe after `sort_values('Importance', ascending=True)`.  The
`pd.DataFrame` constructor raises when the two column lists differ in
length. -/
def plot_feature_importance (model : RFModel) (features : List String) :
    Except ModelError (List (String × ℚ)) :=
  let importance := model.featureImportances
  if features.length = importance.length then
    Except.ok (List.insertionSort (fun a b => a.2 ≤ b.2)
      (features.zip importance))
  else
    Except.error (.shapeError "All arrays must be of the same length")

/-- In-range predicate the specification expects callers to check
against the Feature Ranges dictionary (the widget bounds of the UI
layer); used only as a hypothesis about callers, never by the core. -/
def in_ranges (fr : FeatureRanges) (gdp : ℚ) (poverty_rate : ℚ) (year : ℤ) : Prop :=
  (∀ lo hi, lookupRange fr "GDP per capita" = some (lo, hi) →
      lo.toRat ≤ gdp ∧ gdp ≤ hi.toRat) ∧
  (∀ lo hi, lookupRange fr "headcount_ratio_upper_mid_income_povline" = some (lo, hi) →
      lo.toRat ≤ poverty_rate ∧ poverty_rate ≤ hi.toRat) ∧
  (∀ lo hi, lookupRange fr "year" = some (lo, hi) →
      lo.toRat ≤ (year : ℚ) ∧ (year : ℚ) ≤ hi.toRat)

/-- A concrete fitted model, used to instantiate the abstract regressor
in concrete evaluations. -/
def dummyModel : RFModel :=
  { predictRow := fun xs => xs.foldl (· + ·) 0
    featureImportances := [1/2, 1/3, 1/6] }

/-- A concrete instantiation of the abstract `rfFit` parameter. -/
def constFit : List (List ℚ) → List ℚ → RFModel :=
  fun _ _ => dummyModel

/-- A disk state with no artifact files. -/
def coldDisk : DiskState := { modelFile := none, rangesFile := none }

/-- A training table with all required columns and zero rows. -/
def dfEmpty : DataFrame :=
  { cols := features ++ [target], rows := [] }

/-- A training table with all required columns and one row whose every
value is 2000. -/
def dfFull : DataFrame :=
  { cols := features ++ [target], rows := [fun _ => (2000 : ℚ)] }

/-- A training table whose columns lack `year`. -/
def dfNoYear : DataFrame :=
  { cols := ["GDP per capita", "headcount_ratio_upper_mid_income_povline", target]
    rows := [] }

/-- A training table with all required columns and one row whose `year`
value is the non-integral 2020.5 (and every other value 1). -/
def dfHalfYear : DataFrame :=
  { cols := features ++ [target]
    rows := [fun c => if c = "year" then (4041/2 : ℚ) else 1] }

/-- A disk state on which both artifact files exist. -/
def warmDisk : DiskState :=
  { modelFile := some dummyModel, rangesFile := some [] }

/-- A concrete feature-ranges dictionary used to exhibit out-of-range
inputs. -/
def frW : FeatureRanges :=
  [("GDP per capita", (.float 0, .float 1)),
   ("headcount_ratio_upper_mid_income_povline", (.float 0, .float 1)),
   ("year", (.int 2000, .int 2020))]

instance : IsTotal (String × ℚ) (fun a b => a.2 ≤ b.2) :=
  ⟨fun a b => le_total a.2 b.2⟩

instance : IsTrans (String × ℚ) (fun a b => a.2 ≤ b.2) :=
  ⟨fun _ _ _ => le_trans⟩

/-! Helper lemmas -/

theorem foldl_min_le_init (xs : List ℚ) (a : ℚ) : xs.foldl min a ≤ a := by
  induction xs generalizing a with
  | nil => simp
  | cons x xs ih =>
      simp only [List.foldl_cons]
      exact le_trans (ih (min a x)) (min_le_left a x)

theorem foldl_min_le_mem (xs : List ℚ) (v : ℚ) (hv : v ∈ xs) (a : ℚ) :
    xs.foldl min a ≤ v := by
  induction xs generalizing a with
  | nil => cases hv
  | cons x xs ih =>
      simp only [List.foldl_cons]
      rcases List.mem_cons.mp hv with h | h
      · subst h
        exact le_trans (foldl_min_le_init xs (min a v)) (min_le_right a v)
      · exact ih h (min a x)

/-- The minimum of a column bounds every one of its values from below. -/
theorem seriesMin_le (l : List ℚ) (v : ℚ) (hv : v ∈ l) : seriesMin l ≤ v := by
  cases l with
  | nil => cases hv
  | cons x xs =>
      simp only [seriesMin]
      rcases List.mem_cons.mp hv with h | h
      · subst h; exact foldl_min_le_init xs v
      · exact foldl_min_le_mem xs v h x

theorem init_le_foldl_max (xs : List ℚ) (a : ℚ) : a ≤ xs.foldl max a := by
  induction xs generalizing a with
  | nil => simp
  | cons x xs ih =>
      simp only [List.foldl_cons]
      exact le_trans (le_max_left a x) (ih (max a x))

theorem mem_le_foldl_max (xs : List ℚ) (v : ℚ) (hv : v ∈ xs) (a : ℚ) :
    v ≤ xs.foldl max a := by
  induction xs generalizing a with
  | nil => cases hv
  | cons x xs ih =>
      simp only [List.foldl_cons]
      rcases List.mem_cons.mp hv with h | h
      · subst h
        exact le_trans (le_max_right a v) (init_le_foldl_max xs (max a v))
      · exact ih h (max a x)

/-- The maximum of a column bounds every one of its values from above. -/
theorem le_seriesMax (l : List ℚ) (v : ℚ) (hv : v ∈ l) : v ≤ seriesMax l := by
  cases l with
  | nil => cases hv
  | cons x xs =>
      simp only [seriesMax]
      rcases List.mem_cons.mp hv with h | h
      · subst h; exact init_le_foldl_max xs v
      · exact mem_le_foldl_max xs v h x

/-- Python `int()` truncation moves a value by strictly less than 1 (up). -/
theorem pyInt_lt_add_one (q : ℚ) : (pyInt q : ℚ) < q + 1 := by
  unfold pyInt
  split
  · exact lt_of_le_of_lt (Int.floor_le q) (by linarith)
  · exact Int.ceil_lt_add_one q

/-- Python `int()` truncation moves a value by strictly less than 1 (down). -/
theorem sub_one_lt_pyInt (q : ℚ) : q - 1 < (pyInt q : ℚ) := by
  unfold pyInt
  split
  · exact Int.sub_one_lt_floor q
  · exact lt_of_lt_of_le (by linarith) (Int.le_ceil q)

/-- On a cold cache with all required columns present and at least one
row, `train_model` fits the regressor on the design matrix, computes
the ranges dictionary, writes both artifact files and returns both. -/
theorem train_model_trains (rfFit : List (List ℚ) → List ℚ → RFModel)
    (df : DataFrame) (s : DiskState)
    (hm : s.modelFile = none) (hr : s.rangesFile = none)
    (hfeat : ∀ c ∈ features, c ∈ df.cols) (htgt : target ∈ df.cols)
    (hne : df.rows ≠ []) :
    train_model rfFit df s
      = (Except.ok (rfFit (designMatrix df) (df.colVals target), extract df),
         { modelFile := some (rfFit (designMatrix df) (df.colVals target)),
           rangesFile := some (extract df) }) := by
  obtain ⟨sm, sr⟩ := s
  simp only [DiskState.modelFile] at hm
  simp only [DiskState.rangesFile] at hr
  subst hm; subst hr
  have hrows : df.rows.isEmpty = false := by
    cases h : df.rows with
    | nil => exact absurd h hne
    | cons _ _ => simp [h]
  simp [train_model, hrows, hfeat, htgt]
  exact hfeat

/-- Dictionary access of the ranges dictionary at `'GDP per capita'`. -/
theorem lookupRange_extract_gdp (df : DataFrame) :
    lookupRange (extract df) "GDP per capita"
      = some (.float (seriesMin (df.colVals "GDP per capita")),
              .float (seriesMax (df.colVals "GDP per capita"))) := rfl

/-- Dictionary access of the ranges dictionary at the poverty column. -/
theorem lookupRange_extract_pov (df : DataFrame) :
    lookupRange (extract df) "headcount_ratio_upper_mid_income_povline"
      = some (.float (seriesMin (df.colVals "headcount_ratio_upper_mid_income_povline")),
              .float (seriesMax (df.colVals "headcount_ratio_upper_mid_income_povline"))) := rfl

/-- Dictionary access of the ranges dictionary at `'year'`. -/
theorem lookupRange_extract_year (df : DataFrame) :
    lookupRange (extract df) "year"
      = some (.int (pyInt (seriesMin (df.colVals "year"))),
              .int (pyInt (seriesMax (df.colVals "year")))) := rfl

/-- When both artifact files exist, `train_model` returns their
contents and leaves the disk untouched. -/
theorem train_model_load_aux (rfFit : List (List ℚ) → List ℚ → RFModel)
    (df : DataFrame) (s : DiskState) (m : RFModel) (fr : FeatureRanges)
    (hm : s.modelFile = some m) (hr : s.rangesFile = some fr) :
    train_model rfFit df s = (Except.ok (m, fr), s) := by
  obtain ⟨sm, sr⟩ := s
  simp only [DiskState.modelFile] at hm
  simp only [DiskState.rangesFile] at hr
  subst hm; subst hr
  rfl

/-- After any successful call of `train_model`, both artifact files
hold exactly the returned model and ranges. -/
theorem train_model_ok_state (rfFit : List (List ℚ) → List ℚ → RFModel)
    (df : DataFrame) (s : DiskState) (m : RFModel) (fr : FeatureRanges)
    (h : (train_model rfFit df s).1 = Except.ok (m, fr)) :
    (train_model rfFit df s).2.modelFile = some m ∧
    (train_model rfFit df s).2.rangesFile = some fr := by
  obtain ⟨sm, sr⟩ := s
  cases sm with
  | some m0 =>
      cases sr with
      | some fr0 =>
          simp [train_model] at h ⊢
          exact h
      | none =>
          simp only [train_model] at h ⊢
          split_ifs at h ⊢
          all_goals simp_all
  | none =>
      simp only [train_model] at h ⊢
      split_ifs at h ⊢
      all_goals simp_all

/-! Claim theorems -/

/-- C1: for every training table with zero rows and no pre-existing
artifact files, `train_model` raises a training error (the sklearn fit
failure on zero samples, or the pandas missing-column failure when the
empty table also lacks the columns) and the disk state is unchanged:
neither the model file nor the feature-ranges file is written. -/
theorem train_model_empty_table_error (rfFit : List (List ℚ) → List ℚ → RFModel)
    (df : DataFrame) (s : DiskState)
    (hm : s.modelFile = none) (hr : s.rangesFile = none)
    (hrows : df.rows = []) :
    (∃ k, (train_model rfFit df s).1 = Except.error (ModelError.trainingError k)) ∧
    (train_model rfFit df s).2 = s := by
  obtain ⟨sm, sr⟩ := s
  simp only [DiskState.modelFile] at hm
  simp only [DiskState.rangesFile] at hr
  subst hm; subst hr
  simp only [train_model, hrows, List.isEmpty_nil]
  split_ifs <;> exact ⟨⟨_, rfl⟩, rfl⟩

theorem train_model_empty_table_error_witness :
    (∃ k, (train_model constFit dfEmpty coldDisk).1
        = Except.error (ModelError.trainingError k)) ∧
    (train_model constFit dfEmpty coldDisk).2 = coldDisk :=
  train_model_empty_table_error constFit dfEmpty coldDisk rfl rfl rfl

/-- C2: whenever both artifact files exist on disk, `train_model`
returns their deserialized contents unconditionally for every training
table — no validation against the table, no training, no writes; in
particular it succeeds on an empty or column-deficient table. -/
theorem train_model_cached_load (rfFit : List (List ℚ) → List ℚ → RFModel)
    (df : DataFrame) (s : DiskState) (m : RFModel) (fr : FeatureRanges)
    (hm : s.modelFile = some m) (hr : s.rangesFile = some fr) :
    train_model rfFit df s = (Except.ok (m, fr), s) :=
  train_model_load_aux rfFit df s m fr hm hr

theorem train_model_cached_load_witness :
    train_model constFit dfEmpty warmDisk
      = (Except.ok (dummyModel, ([] : FeatureRanges)), warmDisk) :=
  train_model_cached_load constFit dfEmpty warmDisk dummyModel [] rfl rfl

/-- C3: for every training table missing the `year` column (and no
pre-existing artifact files), `train_model` raises a training error
whose missing-column list names `year`, and writes nothing. -/
theorem train_model_missing_year_error (rfFit : List (List ℚ) → List ℚ → RFModel)
    (df : DataFrame) (s : DiskState)
    (hm : s.modelFile = none) (hr : s.rangesFile = none)
    (hy : "year" ∉ df.cols) :
    ∃ missing, (train_model rfFit df s).1
        = Except.error (ModelError.trainingError (TrainFailure.missingColumns missing)) ∧
      "year" ∈ missing ∧ (train_model rfFit df s).2 = s := by
  obtain ⟨sm, sr⟩ := s
  simp only [DiskState.modelFile] at hm
  simp only [DiskState.rangesFile] at hr
  subst hm; subst hr
  have hmem : "year" ∈ features.filter (fun c => !(df.cols.contains c)) := by
    simp [features, hy]
  have hne : ¬ (features.filter (fun c => !(df.cols.contains c))).isEmpty = true := by
    intro h
    rw [List.isEmpty_iff] at h
    rw [h] at hmem
    cases hmem
  refine ⟨features.filter (fun c => !(df.cols.contains c)), ?_, hmem, ?_⟩
  · simp only [train_model]
    rw [if_neg hne]
  · simp only [train_model]
    rw [if_neg hne]

theorem train_model_missing_year_error_witness :
    ∃ missing, (train_model constFit dfNoYear coldDisk).1
        = Except.error (ModelError.trainingError (TrainFailure.missingColumns missing)) ∧
      "year" ∈ missing ∧ (train_model constFit dfNoYear coldDisk).2 = coldDisk :=
  train_model_missing_year_error constFit dfNoYear coldDisk rfl rfl
    (by simp [dfNoYear, target])

/-- C4 (amended): for every non-empty training table with the required
columns and cold cache, the Feature Ranges returned by `train_model`
satisfy `min ≤ v ≤ max` for the GDP-per-capita and poverty-rate
features and every observed value `v`; the `year` bounds are truncated
through Python `int()` and therefore bound the observed values only up
to the truncation error: `min < v + 1` and `v - 1 < max`. -/
theorem train_model_range_bounds (rfFit : List (List ℚ) → List ℚ → RFModel)
    (df : DataFrame) (s : DiskState)
    (hm : s.modelFile = none) (hr : s.rangesFile = none)
    (hfeat : ∀ c ∈ features, c ∈ df.cols) (htgt : target ∈ df.cols)
    (hne : df.rows ≠ []) :
    ∃ m s', train_model rfFit df s = (Except.ok (m, extract df), s') ∧
      (∀ lo hi, lookupRange (extract df) "GDP per capita" = some (lo, hi) →
        ∀ v ∈ df.colVals "GDP per capita", lo.toRat ≤ v ∧ v ≤ hi.toRat) ∧
      (∀ lo hi,
        lookupRange (extract df) "headcount_ratio_upper_mid_income_povline" = some (lo, hi) →
        ∀ v ∈ df.colVals "headcount_ratio_upper_mid_income_povline",
          lo.toRat ≤ v ∧ v ≤ hi.toRat) ∧
      (∀ lo hi, lookupRange (extract df) "year" = some (lo, hi) →
        ∀ v ∈ df.colVals "year", lo.toRat < v + 1 ∧ v - 1 < hi.toRat) := by
  refine ⟨_, _, train_model_trains rfFit df s hm hr hfeat htgt hne, ?_, ?_, ?_⟩
  · rw [lookupRange_extract_gdp]
    rintro lo hi hlh v hv
    simp only [Option.some_inj, Prod.mk.injEq] at hlh
    obtain ⟨rfl, rfl⟩ := hlh
    exact ⟨seriesMin_le _ v hv, le_seriesMax _ v hv⟩
  · rw [lookupRange_extract_pov]
    rintro lo hi hlh v hv
    simp only [Option.some_inj, Prod.mk.injEq] at hlh
    obtain ⟨rfl, rfl⟩ := hlh
    exact ⟨seriesMin_le _ v hv, le_seriesMax _ v hv⟩
  · rw [lookupRange_extract_year]
    rintro lo hi hlh v hv
    simp only [Option.some_inj, Prod.mk.injEq] at hlh
    obtain ⟨rfl, rfl⟩ := hlh
    constructor
    · have h1 := pyInt_lt_add_one (seriesMin (df.colVals "year"))
      have h2 := seriesMin_le _ v hv
      simp only [PyNum.toRat]
      linarith
    · have h1 := sub_one_lt_pyInt (seriesMax (df.colVals "year"))
      have h2 := le_seriesMax _ v hv
      simp only [PyNum.toRat]
      linarith

theorem train_model_range_bounds_witness :
    ∃ m s', train_model constFit dfFull coldDisk = (Except.ok (m, extract dfFull), s') ∧
      (∀ lo hi, lookupRange (extract dfFull) "GDP per capita" = some (lo, hi) →
        ∀ v ∈ dfFull.colVals "GDP per capita", lo.toRat ≤ v ∧ v ≤ hi.toRat) ∧
      (∀ lo hi,
        lookupRange (extract dfFull) "headcount_ratio_upper_mid_income_povline" = some (lo, hi) →
        ∀ v ∈ dfFull.colVals "headcount_ratio_upper_mid_income_povline",
          lo.toRat ≤ v ∧ v ≤ hi.toRat) ∧
      (∀ lo hi, lookupRange (extract dfFull) "year" = some (lo, hi) →
        ∀ v ∈ dfFull.colVals "year", lo.toRat < v + 1 ∧ v - 1 < hi.toRat) :=
  train_model_range_bounds constFit dfFull coldDisk rfl rfl
    (fun c hc => List.mem_append_left _ hc)
    (List.mem_append_right _ (by simp [target]))
    (by simp [dfFull])

/-- C4 counterexample: on the one-row table whose `year` value is the
non-integral 2020.5, `train_model` (cold cache) stores the truncated
year maximum 2020, so the observed year value 2020.5 exceeds the
stored `max` bound, refuting `v ≤ max` for the `year` feature. -/
theorem feature_range_year_counterexample :
    (train_model constFit dfHalfYear coldDisk).1
        = Except.ok (dummyModel, extract dfHalfYear) ∧
    lookupRange (extract dfHalfYear) "year" = some (PyNum.int 2020, PyNum.int 2020) ∧
    (4041/2 : ℚ) ∈ dfHalfYear.colVals "year" ∧
    ¬ ((4041/2 : ℚ) ≤ (PyNum.int 2020).toRat) := by
  refine ⟨?_, ?_, ?_, ?_⟩
  · simp [train_model, coldDisk, dfHalfYear, features, target, constFit]
  · simp [lookupRange, extract, dfHalfYear, seriesMin, seriesMax, pyInt,
      DataFrame.colVals, List.find?]
    norm_num
  · simp [dfHalfYear, DataFrame.colVals]
  · norm_num [PyNum.toRat]

/-- C5: if a call of `train_model` succeeds, an immediately following
call on the resulting disk state returns bit-identical model and
ranges and leaves the disk unchanged: the second call is a pure load
of the artifact files, with no training and no writes. -/
theorem train_model_twice_identical (rfFit : List (List ℚ) → List ℚ → RFModel)
    (df : DataFrame) (s : DiskState) (m : RFModel) (fr : FeatureRanges)
    (h : (train_model rfFit df s).1 = Except.ok (m, fr)) :
    train_model rfFit df (train_model rfFit df s).2
      = (Except.ok (m, fr), (train_model rfFit df s).2) := by
  obtain ⟨h1, h2⟩ := train_model_ok_state rfFit df s m fr h
  exact train_model_load_aux rfFit df _ m fr h1 h2

theorem train_model_twice_identical_witness :
    train_model constFit dfFull (train_model constFit dfFull coldDisk).2
      = (Except.ok (dummyModel, extract dfFull), (train_model constFit dfFull coldDisk).2) :=
  train_model_twice_identical constFit dfFull coldDisk dummyModel (extract dfFull)
    (by rw [train_model_trains constFit dfFull coldDisk rfl rfl
      (fun c hc => List.mem_append_left _ hc)
      (List.mem_append_right _ (by simp [target]))
      (by simp [dfFull])]; rfl)

/-- C6: `predict_life_expectancy` is deterministic: two calls with
identical model and identical input triple return the same value; the
result depends on no hidden input. -/
theorem predict_deterministic (m m' : RFModel) (g g' p p' : ℚ) (y y' : ℤ)
    (hm : m = m') (hg : g = g') (hp : p = p') (hy : y = y') :
    predict_life_expectancy m g p y = predict_life_expectancy m' g' p' y' := by
  subst hm; subst hg; subst hp; subst hy
  rfl

theorem predict_deterministic_witness :
    predict_life_expectancy dummyModel 50000 5 2020
      = predict_life_expectancy dummyModel 50000 5 2020 :=
  predict_deterministic dummyModel dummyModel 50000 50000 5 5 2020 2020 rfl rfl rfl rfl

/-- C7: `predict_life_expectancy` performs no bounds clamping and
raises no error: even for an input triple outside the Feature Ranges
it passes the unmodified values to the regressor and returns whatever
the regressor produces. -/
theorem predict_no_clamping (m : RFModel) (fr : FeatureRanges)
    (gdp poverty_rate : ℚ) (year : ℤ)
    (_hout : ¬ in_ranges fr gdp poverty_rate year) :
    predict_life_expectancy m gdp poverty_rate year
      = m.predictRow [gdp, poverty_rate, (year : ℚ)] := rfl

theorem predict_no_clamping_witness :
    ¬ in_ranges frW 5 0 2010 ∧
    predict_life_expectancy dummyModel 5 0 2010
      = dummyModel.predictRow [5, 0, (2010 : ℚ)] := by
  have hout : ¬ in_ranges frW 5 0 2010 := by
    intro h
    have h5 := (h.1 (PyNum.float 0) (PyNum.float 1) rfl).2
    norm_num [PyNum.toRat] at h5
  exact ⟨hout, predict_no_clamping dummyModel frW 5 0 2010 hout⟩

/-- C8: when the feature-name list has exactly as many entries as the
model has importance scores, `plot_feature_importance` succeeds and
its (name, score) pairs are the zipped pairs ordered ascending by
score. -/
theorem plot_feature_importance_sorted (model : RFModel) (names : List String)
    (h : names.length = model.featureImportances.length) :
    ∃ l, plot_feature_importance model names = Except.ok l ∧
      List.Sorted (fun a b => a.2 ≤ b.2) l ∧
      l.Perm (names.zip model.featureImportances) := by
  refine ⟨List.insertionSort (fun a b => a.2 ≤ b.2) (names.zip model.featureImportances),
    ?_, ?_, ?_⟩
  · simp [plot_feature_importance, h]
  · exact List.sorted_insertionSort _ _
  · exact List.perm_insertionSort _ _

theorem plot_feature_importance_sorted_witness :
    ∃ l, plot_feature_importance dummyModel ["GDP per capita", "Poverty Rate", "Year"]
        = Except.ok l ∧
      List.Sorted (fun a b => a.2 ≤ b.2) l ∧
      l.Perm (["GDP per capita", "Poverty Rate", "Year"].zip dummyModel.featureImportances) :=
  plot_feature_importance_sorted dummyModel ["GDP per capita", "Poverty Rate", "Year"]
    (by simp [dummyModel])

/-- C9: when the feature-name list length differs from the model's
importance-score count, `plot_feature_importance` raises the
length-mismatch error of the dataframe constructor (the `ShapeError`
of the error taxonomy) instead of returning a result. -/
theorem plot_feature_importance_shape_error (model : RFModel) (names : List String)
    (h : names.length ≠ model.featureImportances.length) :
    ∃ msg, plot_feature_importance model names
        = Except.error (ModelError.shapeError msg) := by
  refine ⟨"All arrays must be of the same length", ?_⟩
  simp [plot_feature_importance, h]

theorem plot_feature_importance_shape_error_witness :
    ∃ msg, plot_feature_importance dummyModel ["GDP per capita"]
        = Except.error (ModelError.shapeError msg) :=
  plot_feature_importance_shape_error dummyModel ["GDP per capita"] (by simp [dummyModel])

/-- C10: on a cold cache, the ranges dictionary returned by
`train_model` stores the `year` bounds as Python ints obtained by
`int()` truncation, while the GDP-per-capita and poverty-rate bounds
keep the untruncated float values of the table: the three entries do
not have a uniform numeric type. -/
theorem feature_ranges_mixed_types (rfFit : List (List ℚ) → List ℚ → RFModel)
    (df : DataFrame) (s : DiskState)
    (hm : s.modelFile = none) (hr : s.rangesFile = none)
    (hfeat : ∀ c ∈ features, c ∈ df.cols) (htgt : target ∈ df.cols)
    (hne : df.rows ≠ []) :
    ∃ m s', train_model rfFit df s = (Except.ok (m, extract df), s') ∧
      lookupRange (extract df) "year"
        = some (.int (pyInt (seriesMin (df.colVals "year"))),
                .int (pyInt (seriesMax (df.colVals "year")))) ∧
      lookupRange (extract df) "GDP per capita"
        = some (.float (seriesMin (df.colVals "GDP per capita")),
                .float (seriesMax (df.colVals "GDP per capita"))) ∧
      lookupRange (extract df) "headcount_ratio_upper_mid_income_povline"
        = some (.float (seriesMin (df.colVals "headcount_ratio_upper_mid_income_povline")),
                .float (seriesMax (df.colVals "headcount_ratio_upper_mid_income_povline"))) ∧
      (∀ q : ℚ, PyNum.int (pyInt (seriesMin (df.colVals "year"))) ≠ PyNum.float q) :=
  ⟨_, _, train_model_trains rfFit df s hm hr hfeat htgt hne,
    lookupRange_extract_year df, lookupRange_extract_gdp df, lookupRange_extract_pov df,
    fun _ h => PyNum.noConfusion h⟩

theorem feature_ranges_mixed_types_witness :
    ∃ m s', train_model constFit dfFull coldDisk = (Except.ok (m, extract dfFull), s') ∧
      lookupRange (extract dfFull) "year"
        = some (.int (pyInt (seriesMin (dfFull.colVals "year"))),
                .int (pyInt (seriesMax (dfFull.colVals "year")))) ∧
      lookupRange (extract dfFull) "GDP per capita"
        = some (.float (seriesMin (dfFull.colVals "GDP per capita")),
                .float (seriesMax (dfFull.colVals "GDP per capita"))) ∧
      lookupRange (extract dfFull) "headcount_ratio_upper_mid_income_povline"
        = some (.float (seriesMin (dfFull.colVals "headcount_ratio_upper_mid_income_povline")),
                .float (seriesMax (dfFull.colVals "headcount_ratio_upper_mid_income_povline"))) ∧
      (∀ q : ℚ, PyNum.int (pyInt (seriesMin (dfFull.colVals "year"))) ≠ PyNum.float q) :=
  feature_ranges_mixed_types constFit dfFull coldDisk rfl rfl
    (fun c hc => List.mem_append_left _ hc)
    (List.mem_append_right _ (by simp [target]))
    (by simp [dfFull])

end Model
